import Mathlib

/-!
Shallow embedding of the snow-drift transport model of
`my_streamlit_app/utils/snowdrift_calculations.py` (Tabler 2003 method),
together with the season labeling of `pages/07_Weather_Snowdrift.py`.
Python floats are modelled by real numbers (`ℝ`); wind directions, which
only ever feed the sector classifier (integer floor/mod arithmetic), are
modelled by rationals (`ℚ`) so the classifier stays computable.
-/

namespace Snowdrift

/-- Python's `%` operator on floats with a positive modulus: the true
mathematical (non-negative) modulo `x - y * ⌊x / y⌋`. -/
def qmod (x y : ℚ) : ℚ := x - y * ⌊x / y⌋

/-- Embedding of `sector_index(direction)`: `int(((direction + 11.25) % 360) // 22.5)`.
Floor division already yields an integral value, so the final `int(...)`
truncation coincides with the floor. -/
def sector_index (direction : ℚ) : ℤ :=
  ⌊qmod (direction + 11.25) 360 / 22.5⌋

/-- Embedding of `compute_Qupot(hourly_wind_speeds, dt=3600)`:
`sum((u ** 3.8) * dt for u in hourly_wind_speeds) / 233847`. -/
noncomputable def compute_Qupot (hourly_wind_speeds : List ℝ) (dt : ℝ) : ℝ :=
  (hourly_wind_speeds.map (fun u => u ^ (3.8 : ℝ) * dt)).sum / 233847

/-- One iteration of the loop body of `compute_sector_transport`:
`sectors[idx] += ((u ** 3.8) * dt) / 233847` with `idx = sector_index(d)`. -/
noncomputable def sectorStep (dt : ℝ) (sectors : List ℝ) (p : ℝ × ℚ) : List ℝ :=
  let idx := (sector_index p.2).toNat
  sectors.set idx (sectors.getD idx 0 + p.1 ^ (3.8 : ℝ) * dt / 233847)

/-- Embedding of `compute_sector_transport(hourly_wind_speeds, hourly_wind_dirs, dt=3600)`.
Python's `zip` silently truncates to the shorter of the two sequences,
exactly like `List.zip`. -/
noncomputable def compute_sector_transport (hourly_wind_speeds : List ℝ)
    (hourly_wind_dirs : List ℚ) (dt : ℝ) : List ℝ :=
  (hourly_wind_speeds.zip hourly_wind_dirs).foldl (sectorStep dt)
    (List.replicate 16 0)

/-- Result record of `compute_snow_transport` (the returned dict, with the
unit suffixes of the keys dropped). -/
structure SnowTransport where
  Qupot : ℝ
  Qspot : ℝ
  Srwe : ℝ
  Qinf : ℝ
  Qt : ℝ
  Control : String

/-- Embedding of `compute_snow_transport(T, F, theta, Swe, hourly_wind_speeds, dt=3600)`. -/
noncomputable def compute_snow_transport (T F theta Swe : ℝ)
    (hourly_wind_speeds : List ℝ) (dt : ℝ) : SnowTransport :=
  let Qupot := compute_Qupot hourly_wind_speeds dt
  let Qspot := 0.5 * T * Swe
  let Srwe := theta * Swe
  let Qinf := if Qupot > Qspot then 0.5 * T * Srwe else Qupot
  let control := if Qupot > Qspot then "Snowfall controlled" else "Wind controlled"
  let Qt := Qinf * (1 - (0.14 : ℝ) ^ (F / T))
  ⟨Qupot, Qspot, Srwe, Qinf, Qt, control⟩

/-- Error taxonomy used by the spec; the source only ever raises the
`ValueError` modelled by `unsupportedFenceType`. -/
inductive SnowError where
  | insufficientData : SnowError
  | unsupportedFenceType : String → SnowError
deriving DecidableEq

/-- Message of the `ValueError` raised by `compute_fence_height`
(apostrophes written as the escape of the quote character). -/
def fenceTypeErrorMsg : String :=
  "Unsupported fence type. Choose \x27Wyoming\x27, \x27Slat-and-wire\x27, or \x27Solid\x27."

/-- Python's `str.lower()` (character-wise lowercasing; the fence-type
strings involved are plain ASCII). -/
def strLower (s : String) : String := ⟨s.data.map Char.toLower⟩

/-- Embedding of `compute_fence_height(Qt, fence_type)`: pick the storage
factor by case-insensitive match, then `H = ((Qt/1000)/factor) ** (1/2.2)`;
an unrecognized fence type raises `ValueError` (modelled by `Except.error`). -/
noncomputable def compute_fence_height (Qt : ℝ) (fence_type : String) :
    Except SnowError ℝ :=
  let Qt_tonnes := Qt / 1000
  let factor? : Except SnowError ℝ :=
    if strLower fence_type = "wyoming" then .ok 8.5
    else if strLower fence_type ∈ (["slat-and-wire", "slat and wire"] : List String) then .ok 7.7
    else if strLower fence_type = "solid" then .ok 2.9
    else .error (SnowError.unsupportedFenceType fenceTypeErrorMsg)
  factor?.map (fun factor => (Qt_tonnes / factor) ^ ((1 : ℝ) / 2.2))

/-- Timestamp with second granularity, the resolution at which
`compute_yearly_results` builds its season windows. Comparison of valid
`pd.Timestamp` values is the lexicographic order on the fields, realized
below by the strictly monotone integer encoding `dtEnc`. -/
structure DateTime where
  year : ℤ
  month : ℤ
  day : ℤ
  hour : ℤ
  minute : ℤ
  second : ℤ
deriving DecidableEq

/-- Strictly monotone (on in-range field values) integer encoding of a
timestamp; two valid timestamps compare exactly as their encodings do. -/
def dtEnc (t : DateTime) : ℤ :=
  ((((t.year * 16 + t.month) * 32 + t.day) * 24 + t.hour) * 60 + t.minute) * 60 + t.second

/-- Timestamp comparison `a <= b` of the pandas `Timestamp` order. -/
def dtLe (a b : DateTime) : Bool := dtEnc a ≤ dtEnc b

/-- Number of days of a calendar month (Gregorian leap rule), as enforced by
the `pd.Timestamp` constructor. -/
def daysInMonth (y m : ℤ) : ℤ :=
  if m = 2 then (if (y % 4 = 0 ∧ y % 100 ≠ 0) ∨ y % 400 = 0 then 29 else 28)
  else if m = 4 ∨ m = 6 ∨ m = 9 ∨ m = 11 then 30
  else 31

/-- Field ranges enforced by the `pd.Timestamp` constructor. -/
def ValidDT (t : DateTime) : Prop :=
  1 ≤ t.month ∧ t.month ≤ 12 ∧ 1 ≤ t.day ∧ t.day ≤ daysInMonth t.year t.month ∧
  0 ≤ t.hour ∧ t.hour ≤ 23 ∧ 0 ≤ t.minute ∧ t.minute ≤ 59 ∧
  0 ≤ t.second ∧ t.second ≤ 59

instance (t : DateTime) : Decidable (ValidDT t) := by
  unfold ValidDT; infer_instance

/-- One hourly observation row of the weather DataFrame, restricted to the
columns the snow-drift core reads. -/
structure Row where
  time : DateTime
  wind_speed_10m : ℝ
  wind_direction_10m : ℚ
  temperature_2m : ℝ
  precipitation : ℝ
  season : ℤ

/-- Season label of `pages/07_Weather_Snowdrift.py`:
`dt.year if dt.month >= 7 else dt.year - 1`. -/
def seasonOf (t : DateTime) : ℤ :=
  if 7 ≤ t.month then t.year else t.year - 1

/-- Hourly snowfall water equivalent of `compute_yearly_results`:
`row['precipitation'] if row['temperature_2m'] < 1 else 0`. -/
noncomputable def sweHourly (r : Row) : ℝ :=
  if r.temperature_2m < 1 then r.precipitation else 0

/-- Embedding of `pd.Timestamp(year=s, month=7, day=1)`. -/
def seasonStart (s : ℤ) : DateTime := ⟨s, 7, 1, 0, 0, 0⟩

/-- Embedding of `pd.Timestamp(year=s+1, month=6, day=30, hour=23, minute=59, second=59)`. -/
def seasonEnd (s : ℤ) : DateTime := ⟨s + 1, 6, 30, 23, 59, 59⟩

/-- Membership test of the seasonal filter
`(df['time'] >= season_start) & (df['time'] <= season_end)`. -/
def inSeasonWindow (s : ℤ) (t : DateTime) : Bool :=
  dtLe (seasonStart s) t && dtLe t (seasonEnd s)

/-- One output row of `compute_yearly_results`: the transport dict plus the
`season` and `start_year` keys added in the loop. -/
structure YearlyResult where
  result : SnowTransport
  season : String
  start_year : ℤ

/-- Embedding of `sorted(df['season'].unique())` (and of the ascending key
order in which pandas `groupby('season')` yields its groups). -/
def seasonsSorted (df : List Row) : List ℤ :=
  List.insertionSort (· ≤ ·) (df.map Row.season).dedup

/-- Output row built for one season `s` by the loop body of
`compute_yearly_results` (reached only when the filtered window is nonempty). -/
noncomputable def yearlyRow (df : List Row) (T F theta : ℝ) (s : ℤ) : YearlyResult :=
  let df_season := df.filter (fun r => inSeasonWindow s r.time)
  { result := compute_snow_transport T F theta
      ((df_season.map sweHourly).sum)
      (df_season.map Row.wind_speed_10m) 3600,
    season := toString s ++ "-" ++ toString (s + 1),
    start_year := s }

/-- Embedding of `compute_yearly_results(df, T, F, theta)`:
`sorted(df['season'].unique())` is the sorted deduplicated label list; each
season is filtered to its calendar window, empty windows are skipped
(`continue`), the hourly Swe is summed, and the transport model is invoked
with the season's wind-speed column at the default `dt = 3600`. -/
noncomputable def compute_yearly_results (df : List Row) (T F theta : ℝ) :
    List YearlyResult :=
  (seasonsSorted df).filterMap (fun s =>
    if (df.filter (fun r => inSeasonWindow s r.time)).isEmpty then none
    else some (yearlyRow df T F theta s))

/-- Possible outcomes of `compute_average_sector`: a 16-element mean array,
the NaN value `np.mean` produces on an empty list (`nanResult`), or a raised
exception (`error`) — the source never produces the third. -/
inductive AvgSectorResult where
  | ok : List ℝ → AvgSectorResult
  | nanResult : AvgSectorResult
  | error : SnowError → AvgSectorResult

/-- Embedding of `compute_average_sector(df)`: group rows by season label in
ascending key order (pandas `groupby` sorts keys), compute the per-sector
transport of each group, and take the elementwise mean via `np.mean(..., axis=0)`.
On an empty group list `np.mean` returns NaN (no exception), modelled by
`nanResult`. The `Swe_hourly` column computed inside the source loop is never
read afterwards and is omitted. -/
noncomputable def compute_average_sector (df : List Row) : AvgSectorResult :=
  let sectors_list := (seasonsSorted df).map (fun s =>
    let group := df.filter (fun r => r.season == s)
    compute_sector_transport (group.map Row.wind_speed_10m)
      (group.map Row.wind_direction_10m) 3600)
  if sectors_list.isEmpty then AvgSectorResult.nanResult
  else AvgSectorResult.ok ((List.range 16).map (fun i =>
    (sectors_list.map (fun l => l.getD i 0)).sum / sectors_list.length))

/-- Concrete hourly observation (December 2021, hence season label 2021)
used to instantiate the aggregation theorems on a one-row frame. -/
noncomputable def sampleRow : Row :=
  { time := ⟨2021, 12, 1, 0, 0, 0⟩, wind_speed_10m := 0, wind_direction_10m := 0,
    temperature_2m := 0, precipitation := 0, season := 2021 }

/-! Helper lemmas shared by several claims. -/

lemma qmod_eq_mul_fract (x y : ℚ) (hy : y ≠ 0) :
    qmod x y = y * Int.fract (x / y) := by
  unfold qmod Int.fract
  rw [mul_sub, mul_div_cancel₀ x hy]

lemma qmod_nonneg (x : ℚ) {y : ℚ} (hy : 0 < y) : 0 ≤ qmod x y := by
  rw [qmod_eq_mul_fract x y hy.ne.symm]
  exact mul_nonneg hy.le (Int.fract_nonneg _)

lemma qmod_lt (x : ℚ) {y : ℚ} (hy : 0 < y) : qmod x y < y := by
  rw [qmod_eq_mul_fract x y hy.ne.symm]
  calc y * Int.fract (x / y) < y * 1 := by
        exact mul_lt_mul_of_pos_left (Int.fract_lt_one _) hy
    _ = y := mul_one y

lemma qmod_add_int_mul (x : ℚ) (k : ℤ) :
    qmod (x + 360 * k) 360 = qmod x 360 := by
  unfold qmod
  have hdiv : (x + 360 * (k : ℚ)) / 360 = x / 360 + (k : ℚ) := by
    field_simp
    ring
  rw [hdiv, Int.floor_add_int]
  push_cast
  ring

lemma sector_index_nonneg (d : ℚ) : 0 ≤ sector_index d := by
  unfold sector_index
  exact Int.floor_nonneg.mpr
    (div_nonneg (qmod_nonneg _ (by norm_num)) (by norm_num))

lemma sector_index_le_15 (d : ℚ) : sector_index d ≤ 15 := by
  unfold sector_index
  have hlt : qmod (d + 11.25) 360 / 22.5 < 16 := by
    rw [div_lt_iff₀ (by norm_num : (0 : ℚ) < 22.5)]
    have := qmod_lt (d + 11.25) (by norm_num : (0 : ℚ) < 360)
    linarith
  have h16 : ⌊qmod (d + 11.25) 360 / 22.5⌋ < (16 : ℤ) :=
    Int.floor_lt.mpr (by push_cast; exact hlt)
  omega

lemma sector_index_add_period (d : ℚ) (k : ℤ) :
    sector_index (d + 360 * k) = sector_index d := by
  unfold sector_index
  rw [show d + 360 * (k : ℚ) + 11.25 = d + 11.25 + 360 * (k : ℚ) by ring,
    qmod_add_int_mul]

/-- C5: `sector_index` is the floor of the true-modulo expression
`((direction + 11.25) mod 360) / 22.5`, with a non-negative modulo; it always
lies in `[0, 15]`, is periodic under adding integer multiples of 360°, and
sends 348.75°, 0° and 11.249° to sector 0. -/
theorem sector_index_spec (d : ℚ) :
    sector_index d = ⌊qmod (d + 11.25) 360 / 22.5⌋ ∧
    0 ≤ qmod (d + 11.25) 360 ∧
    0 ≤ sector_index d ∧ sector_index d ≤ 15 ∧
    (∀ k : ℤ, sector_index (d + 360 * k) = sector_index d) ∧
    sector_index 348.75 = 0 ∧ sector_index 0 = 0 ∧ sector_index 11.249 = 0 :=
  ⟨rfl, qmod_nonneg _ (by norm_num), sector_index_nonneg d, sector_index_le_15 d,
    sector_index_add_period d, by norm_num [sector_index, qmod],
    by norm_num [sector_index, qmod], by norm_num [sector_index, qmod]⟩

lemma sum_map_div (l : List ℝ) (f : ℝ → ℝ) (c : ℝ) :
    (l.map (fun u => f u / c)).sum = (l.map f).sum / c := by
  induction l with
  | nil => simp
  | cons a t ih => simp [ih, add_div]

lemma sum_set_getD (l : List ℝ) (i : ℕ) (x : ℝ) (h : i < l.length) :
    (l.set i (l.getD i 0 + x)).sum = l.sum + x := by
  induction l generalizing i with
  | nil => simp at h
  | cons a t ih =>
    cases i with
    | zero => simp [List.getD]; ring
    | succ n =>
      have hn : n < t.length := by simpa using h
      simp only [List.getD_cons_succ, List.set_cons_succ, List.sum_cons]
      rw [ih n hn]
      ring

lemma sectorStep_length (dt : ℝ) (sectors : List ℝ) (p : ℝ × ℚ) :
    (sectorStep dt sectors p).length = sectors.length := by
  simp [sectorStep]

lemma sectorStep_sum (dt : ℝ) (sectors : List ℝ) (p : ℝ × ℚ)
    (h : sectors.length = 16) :
    (sectorStep dt sectors p).sum = sectors.sum + p.1 ^ (3.8 : ℝ) * dt / 233847 := by
  unfold sectorStep
  apply sum_set_getD
  have h0 := sector_index_nonneg p.2
  have h15 := sector_index_le_15 p.2
  omega

lemma foldl_sectorStep_spec (dt : ℝ) (pairs : List (ℝ × ℚ)) :
    ∀ acc : List ℝ, acc.length = 16 →
      (pairs.foldl (sectorStep dt) acc).sum
          = acc.sum + (pairs.map (fun p => p.1 ^ (3.8 : ℝ) * dt / 233847)).sum ∧
      (pairs.foldl (sectorStep dt) acc).length = 16 := by
  induction pairs with
  | nil => intro acc h; simp [h]
  | cons p t ih =>
    intro acc h
    have hstep : (sectorStep dt acc p).length = 16 := by
      rw [sectorStep_length]; exact h
    obtain ⟨ihsum, ihlen⟩ := ih (sectorStep dt acc p) hstep
    refine ⟨?_, by simpa using ihlen⟩
    simp only [List.foldl_cons, List.map_cons, List.sum_cons]
    rw [ihsum, sectorStep_sum dt acc p h]
    ring

lemma zip_take_take (ws : List ℝ) (ds : List ℚ) :
    ws.zip ds = (ws.take ds.length).zip (ds.take ws.length) := by
  induction ws generalizing ds with
  | nil => simp
  | cons a t ih =>
    cases ds with
    | nil => simp
    | cons b u => simp [List.zip_cons_cons, ih u]

/-- C2: with equal-length speed and direction sequences, the 16 per-sector
accumulators of `compute_sector_transport` sum to the scalar accumulator
`compute_Qupot` over the same speeds; on empty input the scalar form is 0 and
the per-sector form is the all-zero 16-array. -/
theorem sector_transport_conservation (ws : List ℝ) (ds : List ℚ) (dt : ℝ)
    (hlen : ws.length = ds.length) :
    (compute_sector_transport ws ds dt).sum = compute_Qupot ws dt ∧
    compute_Qupot [] dt = 0 ∧
    compute_sector_transport [] [] dt = List.replicate 16 0 := by
  refine ⟨?_, by simp [compute_Qupot], by simp [compute_sector_transport]⟩
  unfold compute_sector_transport compute_Qupot
  obtain ⟨hsum, -⟩ := foldl_sectorStep_spec dt (ws.zip ds) (List.replicate 16 0)
    (by simp)
  rw [hsum]
  have hfst : (ws.zip ds).map Prod.fst = ws :=
    List.map_fst_zip ws ds (le_of_eq hlen)
  have hmap : (ws.zip ds).map (fun p => p.1 ^ (3.8 : ℝ) * dt / 233847)
      = ws.map (fun u => u ^ (3.8 : ℝ) * dt / 233847) := by
    rw [show (fun p : ℝ × ℚ => p.1 ^ (3.8 : ℝ) * dt / 233847)
        = (fun u : ℝ => u ^ (3.8 : ℝ) * dt / 233847) ∘ Prod.fst from rfl,
      ← List.map_map, hfst]
  rw [hmap, sum_map_div ws (fun u => u ^ (3.8 : ℝ) * dt) 233847]
  simp

/-- C2 witness: the conservation law instantiated at the one-hour input with
wind speed 1 m/s from the north. -/
theorem sector_transport_conservation_witness :
    ([(1 : ℝ)].length = [(0 : ℚ)].length) ∧
    (compute_sector_transport [1] [0] 3600).sum = compute_Qupot [1] 3600 :=
  ⟨rfl, (sector_transport_conservation [1] [0] 3600 rfl).1⟩

/-- C3 counterexample: on mismatched-length inputs `compute_sector_transport`
does not fail — it silently zips to the shorter sequence, so the two-speed /
one-direction input yields exactly the one-speed result. -/
theorem sector_transport_mismatch_counterexample :
    compute_sector_transport [1, 2] [0] 3600
      = compute_sector_transport [1] [0] 3600 := rfl

/-- C3 amended: for sequences of different lengths `compute_sector_transport`
returns the (error-free) result of zipping to the shorter sequence: it equals
the computation on the mutually truncated inputs. -/
theorem sector_transport_truncates (ws : List ℝ) (ds : List ℚ) (dt : ℝ) :
    compute_sector_transport ws ds dt
      = compute_sector_transport (ws.take ds.length) (ds.take ws.length) dt := by
  unfold compute_sector_transport
  rw [← zip_take_take]

lemma snow_transport_Qupot_eq (T F theta Swe dt : ℝ) (ws : List ℝ) :
    (compute_snow_transport T F theta Swe ws dt).Qupot = compute_Qupot ws dt := rfl

lemma snow_transport_Qspot_eq (T F theta Swe dt : ℝ) (ws : List ℝ) :
    (compute_snow_transport T F theta Swe ws dt).Qspot = 0.5 * T * Swe := rfl

lemma snow_transport_Qinf_eq (T F theta Swe dt : ℝ) (ws : List ℝ) :
    (compute_snow_transport T F theta Swe ws dt).Qinf
      = if compute_Qupot ws dt > 0.5 * T * Swe then 0.5 * T * (theta * Swe)
        else compute_Qupot ws dt := rfl

lemma snow_transport_Control_eq (T F theta Swe dt : ℝ) (ws : List ℝ) :
    (compute_snow_transport T F theta Swe ws dt).Control
      = if compute_Qupot ws dt > 0.5 * T * Swe then "Snowfall controlled"
        else "Wind controlled" := rfl

lemma snow_transport_Qt_eq (T F theta Swe dt : ℝ) (ws : List ℝ) :
    (compute_snow_transport T F theta Swe ws dt).Qt
      = (compute_snow_transport T F theta Swe ws dt).Qinf
          * (1 - (0.14 : ℝ) ^ (F / T)) := rfl

lemma snow_transport_Qinf_indep (T F₁ F₂ theta Swe dt : ℝ) (ws : List ℝ) :
    (compute_snow_transport T F₁ theta Swe ws dt).Qinf
      = (compute_snow_transport T F₂ theta Swe ws dt).Qinf := rfl

/-- C1: the control regime is decided by the strict comparison `Qupot > Qspot`
with `Qspot = 0.5 * T * Swe`: strictly greater gives the snowfall-controlled
branch with `Qinf = 0.5 * T * theta * Swe`, and otherwise (ties included) the
wind-controlled branch with `Qinf = Qupot`. -/
theorem snow_transport_regime (T F theta Swe dt : ℝ) (ws : List ℝ) :
    (compute_Qupot ws dt > 0.5 * T * Swe →
      (compute_snow_transport T F theta Swe ws dt).Qinf = 0.5 * T * theta * Swe ∧
      (compute_snow_transport T F theta Swe ws dt).Control = "Snowfall controlled") ∧
    (compute_Qupot ws dt ≤ 0.5 * T * Swe →
      (compute_snow_transport T F theta Swe ws dt).Qinf = compute_Qupot ws dt ∧
      (compute_snow_transport T F theta Swe ws dt).Control = "Wind controlled") := by
  constructor
  · intro h
    rw [snow_transport_Qinf_eq, if_pos h, snow_transport_Control_eq, if_pos h]
    exact ⟨by ring, rfl⟩
  · intro h
    have h' := not_lt.mpr h
    rw [snow_transport_Qinf_eq, if_neg h', snow_transport_Control_eq, if_neg h']
    exact ⟨rfl, rfl⟩

/-- C1 witness: with no wind observations `Qupot = 0 ≤ Qspot = 0.5`, so the
result is wind-controlled with `Qinf = Qupot`. -/
theorem snow_transport_regime_witness :
    compute_Qupot [] 3600 ≤ 0.5 * 1 * 1 ∧
    (compute_snow_transport 1 1 1 1 [] 3600).Qinf = compute_Qupot [] 3600 ∧
    (compute_snow_transport 1 1 1 1 [] 3600).Control = "Wind controlled" := by
  have h : compute_Qupot [] 3600 ≤ 0.5 * 1 * 1 := by
    simp [compute_Qupot]
    norm_num
  obtain ⟨h1, h2⟩ := (snow_transport_regime 1 1 1 1 3600 []).2 h
  exact ⟨h, h1, h2⟩

/-- C10: under non-negative configuration and a relocation coefficient in
`[0,1]`, the controlling transport `Qinf` never exceeds the snowfall-limited
capacity `Qspot` nor the wind-driven capacity `Qupot`, in both regimes. -/
theorem snow_transport_qinf_bounded (T F theta Swe dt : ℝ) (ws : List ℝ)
    (hT : 0 ≤ T) (hSwe : 0 ≤ Swe) (hth0 : 0 ≤ theta) (hth1 : theta ≤ 1)
    (hws : ∀ u ∈ ws, 0 ≤ u) :
    (compute_snow_transport T F theta Swe ws dt).Qinf
        ≤ (compute_snow_transport T F theta Swe ws dt).Qspot ∧
    (compute_snow_transport T F theta Swe ws dt).Qinf
        ≤ (compute_snow_transport T F theta Swe ws dt).Qupot := by
  rw [snow_transport_Qinf_eq, snow_transport_Qspot_eq, snow_transport_Qupot_eq]
  by_cases h : compute_Qupot ws dt > 0.5 * T * Swe
  · rw [if_pos h]
    have hle : 0.5 * T * (theta * Swe) ≤ 0.5 * T * Swe := by
      nlinarith [mul_nonneg (mul_nonneg hT hSwe) (sub_nonneg.mpr hth1)]
    exact ⟨hle, le_trans hle (le_of_lt h)⟩
  · rw [if_neg h]
    exact ⟨not_lt.mp h, le_refl _⟩

/-- C10 witness: the invariant instantiated at `T = Swe = theta = 1` with no
wind observations. -/
theorem snow_transport_qinf_bounded_witness :
    (compute_snow_transport 1 1 1 1 [] 3600).Qinf
        ≤ (compute_snow_transport 1 1 1 1 [] 3600).Qspot ∧
    (compute_snow_transport 1 1 1 1 [] 3600).Qinf
        ≤ (compute_snow_transport 1 1 1 1 [] 3600).Qupot :=
  snow_transport_qinf_bounded 1 1 1 1 3600 [] (by norm_num) (by norm_num)
    (by norm_num) (by norm_num) (by simp)

/-- C9: with `T > 0` fixed and a positive controlling transport `Qinf` (which
does not depend on the fetch `F`), the decayed transport
`Qt = Qinf * (1 - 0.14 ^ (F / T))` is strictly increasing in `F`, vanishes at
`F = 0`, and tends to `Qinf` as `F → ∞`. -/
theorem qt_fetch_saturation (T theta Swe dt : ℝ) (ws : List ℝ) (hT : 0 < T)
    (hQ : 0 < (compute_snow_transport T 0 theta Swe ws dt).Qinf) :
    (∀ F₁ F₂ : ℝ, F₁ < F₂ →
      (compute_snow_transport T F₁ theta Swe ws dt).Qt
        < (compute_snow_transport T F₂ theta Swe ws dt).Qt) ∧
    (compute_snow_transport T 0 theta Swe ws dt).Qt = 0 ∧
    Filter.Tendsto (fun F => (compute_snow_transport T F theta Swe ws dt).Qt)
      Filter.atTop (nhds ((compute_snow_transport T 0 theta Swe ws dt).Qinf)) := by
  refine ⟨?_, ?_, ?_⟩
  · intro F₁ F₂ hF
    rw [snow_transport_Qt_eq, snow_transport_Qt_eq,
      snow_transport_Qinf_indep T F₁ 0 theta Swe dt ws,
      snow_transport_Qinf_indep T F₂ 0 theta Swe dt ws]
    have hdiv : F₁ / T < F₂ / T := by
      rw [div_eq_mul_inv, div_eq_mul_inv]
      exact mul_lt_mul_of_pos_right hF (inv_pos.mpr hT)
    have hpow : (0.14 : ℝ) ^ (F₂ / T) < (0.14 : ℝ) ^ (F₁ / T) :=
      Real.rpow_lt_rpow_of_exponent_gt (by norm_num) (by norm_num) hdiv
    have hsub : (1 : ℝ) - (0.14 : ℝ) ^ (F₁ / T) < 1 - (0.14 : ℝ) ^ (F₂ / T) := by
      linarith
    exact mul_lt_mul_of_pos_left hsub hQ
  · rw [snow_transport_Qt_eq, zero_div, Real.rpow_zero]
    ring
  · have hb : Filter.Tendsto (fun x : ℝ => (0.14 : ℝ) ^ x) Filter.atTop (nhds 0) :=
      tendsto_rpow_atTop_of_base_lt_one 0.14 (by norm_num) (by norm_num)
    have hdiv : Filter.Tendsto (fun F : ℝ => F / T) Filter.atTop Filter.atTop :=
      Filter.tendsto_id.atTop_div_const hT
    have hcomp : Filter.Tendsto (fun F : ℝ => (0.14 : ℝ) ^ (F / T))
        Filter.atTop (nhds 0) := hb.comp hdiv
    have hone : Filter.Tendsto (fun _ : ℝ => (1 : ℝ)) Filter.atTop (nhds 1) :=
      tendsto_const_nhds
    have hmain := (hone.sub hcomp).const_mul
      ((compute_snow_transport T 0 theta Swe ws dt).Qinf)
    have hfun : (fun F => (compute_snow_transport T F theta Swe ws dt).Qt)
        = fun F => (compute_snow_transport T 0 theta Swe ws dt).Qinf
            * ((1 : ℝ) - (0.14 : ℝ) ^ (F / T)) := rfl
    rw [hfun]
    simpa using hmain

/-- C9 witness: at `T = theta = Swe = 1` with one 1 m/s wind hour the result
is wind-controlled with `Qinf = 3600 / 233847 > 0`, and `Qt` vanishes at
`F = 0`. -/
theorem qt_fetch_saturation_witness :
    (0 : ℝ) < 1 ∧
    0 < (compute_snow_transport 1 0 1 1 [1] 3600).Qinf ∧
    (compute_snow_transport 1 0 1 1 [1] 3600).Qt = 0 := by
  have hq : (compute_snow_transport 1 0 1 1 [1] 3600).Qinf = 3600 / 233847 := by
    rw [snow_transport_Qinf_eq]
    have hqu : compute_Qupot [1] 3600 = 3600 / 233847 := by
      simp [compute_Qupot, Real.one_rpow]
    rw [hqu, if_neg (by norm_num)]
  have hpos : 0 < (compute_snow_transport 1 0 1 1 [1] 3600).Qinf := by
    rw [hq]; norm_num
  exact ⟨by norm_num, hpos, (qt_fetch_saturation 1 1 1 3600 [1] (by norm_num) hpos).2.1⟩

/-- C6: for each of the three recognized fence families (matched on the
lowercased selector) the returned height is `((Qt/1000)/factor) ^ (1/2.2)`
with factor 8.5, 7.7 and 2.9 respectively; `compute_fence_height(8500,
"Wyoming")` is exactly 1; and the result only depends on the selector up to
case. -/
theorem fence_height_spec (Qt : ℝ) (ft : String) (hQt : 0 ≤ Qt) :
    (strLower ft = "wyoming" →
      compute_fence_height Qt ft = Except.ok ((Qt / 1000 / 8.5) ^ ((1 : ℝ) / 2.2))) ∧
    (strLower ft = "slat-and-wire" ∨ strLower ft = "slat and wire" →
      compute_fence_height Qt ft = Except.ok ((Qt / 1000 / 7.7) ^ ((1 : ℝ) / 2.2))) ∧
    (strLower ft = "solid" →
      compute_fence_height Qt ft = Except.ok ((Qt / 1000 / 2.9) ^ ((1 : ℝ) / 2.2))) ∧
    compute_fence_height 8500 "Wyoming" = Except.ok 1 ∧
    (∀ ft₂ : String, strLower ft = strLower ft₂ →
      compute_fence_height Qt ft = compute_fence_height Qt ft₂) := by
  refine ⟨?_, ?_, ?_, ?_, ?_⟩
  · intro h
    simp [compute_fence_height, h, Except.map]
  · rintro (h | h) <;> simp [compute_fence_height, h, Except.map]
  · intro h
    simp [compute_fence_height, h, Except.map]
  · have h : strLower "Wyoming" = "wyoming" := by decide
    simp only [compute_fence_height, h]
    rw [if_pos trivial]
    simp only [Except.map]
    rw [show (8500 : ℝ) / 1000 / 8.5 = 1 by norm_num, Real.one_rpow]
  · intro ft₂ h
    simp only [compute_fence_height, h]

/-- C6 witness: the Wyoming fence sized for `Qt = 8500` kg/m has height 1 m. -/
theorem fence_height_spec_witness :
    (0 : ℝ) ≤ 8500 ∧ compute_fence_height 8500 "Wyoming" = Except.ok 1 :=
  ⟨by norm_num, (fence_height_spec 8500 "Wyoming" (by norm_num)).2.2.2.1⟩

/-- C7: a selector outside the three recognized families (up to case) makes
`compute_fence_height` return the `ValueError` whose message names the three
valid choices (each appears as a substring), and no height is produced. -/
theorem fence_height_unsupported (Qt : ℝ) (ft : String)
    (h : strLower ft ∉ (["wyoming", "slat-and-wire", "slat and wire", "solid"] : List String)) :
    compute_fence_height Qt ft
        = Except.error (SnowError.unsupportedFenceType fenceTypeErrorMsg) ∧
    (∃ a b : String, fenceTypeErrorMsg = a ++ "Wyoming" ++ b) ∧
    (∃ a b : String, fenceTypeErrorMsg = a ++ "Slat-and-wire" ++ b) ∧
    (∃ a b : String, fenceTypeErrorMsg = a ++ "Solid" ++ b) := by
  simp only [List.mem_cons, List.not_mem_nil, or_false, not_or] at h
  obtain ⟨h1, h2, h3, h4⟩ := h
  have hmem : strLower ft ∉ (["slat-and-wire", "slat and wire"] : List String) := by
    simp [h2, h3]
  refine ⟨?_,
    ⟨"Unsupported fence type. Choose \x27",
      "\x27, \x27Slat-and-wire\x27, or \x27Solid\x27.", by decide⟩,
    ⟨"Unsupported fence type. Choose \x27Wyoming\x27, \x27",
      "\x27, or \x27Solid\x27.", by decide⟩,
    ⟨"Unsupported fence type. Choose \x27Wyoming\x27, \x27Slat-and-wire\x27, or \x27",
      "\x27.", by decide⟩⟩
  simp only [compute_fence_height]
  rw [if_neg h1, if_neg hmem, if_neg h4]
  rfl

/-- C7 witness: the selector string `unknown` is rejected with the
`ValueError` message of the source. -/
theorem fence_height_unsupported_witness :
    strLower "unknown" ∉ (["wyoming", "slat-and-wire", "slat and wire", "solid"] : List String) ∧
    compute_fence_height 0 "unknown"
      = Except.error (SnowError.unsupportedFenceType fenceTypeErrorMsg) :=
  ⟨by decide, (fence_height_unsupported 0 "unknown" (by decide)).1⟩

/-- C4 counterexample: on an observation set with zero seasons,
`compute_average_sector` produces the NaN of `np.mean([])` — it does not
raise, so in particular it is not an `InsufficientData` error. -/
theorem average_sector_empty_counterexample :
    compute_average_sector [] = AvgSectorResult.nanResult ∧
    compute_average_sector [] ≠ AvgSectorResult.error SnowError.insufficientData := by
  have h1 : compute_average_sector [] = AvgSectorResult.nanResult := rfl
  refine ⟨h1, ?_⟩
  rw [h1]
  intro hc
  exact AvgSectorResult.noConfusion hc

/-- C4 amended: whenever the grouped season-key list is empty,
`compute_average_sector` returns the NaN marker of an empty `np.mean`
rather than an error. -/
theorem average_sector_no_seasons (df : List Row)
    (h : seasonsSorted df = []) :
    compute_average_sector df = AvgSectorResult.nanResult := by
  simp [compute_average_sector, h]

/-- C4 witness: the amended statement instantiated on the empty frame. -/
theorem average_sector_no_seasons_witness :
    seasonsSorted ([] : List Row) = [] ∧
    compute_average_sector [] = AvgSectorResult.nanResult :=
  ⟨rfl, average_sector_no_seasons [] rfl⟩

lemma dtEnc_seasonStart (s : ℤ) :
    dtEnc (seasonStart s) = ((((s * 16 + 7) * 32 + 1) * 24 + 0) * 60 + 0) * 60 + 0 := rfl

lemma dtEnc_seasonEnd (s : ℤ) :
    dtEnc (seasonEnd s)
      = (((((s + 1) * 16 + 6) * 32 + 30) * 24 + 23) * 60 + 59) * 60 + 59 := rfl

lemma daysInMonth_le_31 (y m : ℤ) : daysInMonth y m ≤ 31 := by
  unfold daysInMonth
  split
  · split <;> norm_num
  · split <;> norm_num

lemma inSeasonWindow_iff (s : ℤ) (t : DateTime) (hv : ValidDT t) :
    inSeasonWindow s t = true ↔ seasonOf t = s := by
  obtain ⟨h1, h2, h3, h4, h5, h6, h7, h8, h9, h10⟩ := hv
  have hd31 : t.day ≤ 31 := le_trans h4 (daysInMonth_le_31 t.year t.month)
  have hjune : t.month = 6 → t.day ≤ 30 := by
    intro hm
    rw [hm] at h4
    simpa [daysInMonth] using h4
  unfold inSeasonWindow dtLe
  rw [dtEnc_seasonStart, dtEnc_seasonEnd]
  simp only [Bool.and_eq_true, decide_eq_true_eq]
  unfold dtEnc seasonOf
  split <;> omega

lemma mem_seasonsSorted {df : List Row} {s : ℤ} :
    s ∈ seasonsSorted df ↔ s ∈ df.map Row.season := by
  unfold seasonsSorted
  rw [(List.perm_insertionSort _ _).mem_iff, List.mem_dedup]

lemma seasonsSorted_pairwise_lt (df : List Row) :
    (seasonsSorted df).Pairwise (· < ·) := by
  have hs : (seasonsSorted df).Sorted (· ≤ ·) := List.sorted_insertionSort _ _
  have hn : (seasonsSorted df).Nodup :=
    (List.perm_insertionSort _ _).symm.nodup (List.nodup_dedup _)
  exact (hs.and hn).imp fun h => lt_of_le_of_ne h.1 h.2

lemma filterMap_eq_map_of_some {α β : Type _} (f : α → Option β) (g : α → β)
    (l : List α) (h : ∀ a ∈ l, f a = some (g a)) : l.filterMap f = l.map g := by
  induction l with
  | nil => rfl
  | cons a t ih =>
    rw [List.filterMap_cons, h a (List.mem_cons_self a t), List.map_cons,
      ih fun b hb => h b (List.mem_cons_of_mem a hb)]

lemma yearly_results_eq_map (df : List Row) (T F theta : ℝ)
    (hv : ∀ r ∈ df, ValidDT r.time)
    (hcons : ∀ r ∈ df, r.season = seasonOf r.time) :
    compute_yearly_results df T F theta
      = (seasonsSorted df).map (yearlyRow df T F theta) := by
  unfold compute_yearly_results
  apply filterMap_eq_map_of_some
  intro s hs
  have hne : ¬ (df.filter (fun r => inSeasonWindow s r.time)).isEmpty = true := by
    intro hemp
    rw [mem_seasonsSorted, List.mem_map] at hs
    obtain ⟨r, hr, hrs⟩ := hs
    have hwin : inSeasonWindow s r.time = true := by
      rw [inSeasonWindow_iff s r.time (hv r hr), ← hcons r hr]
      exact hrs
    have hmemf : r ∈ df.filter (fun r => inSeasonWindow s r.time) :=
      List.mem_filter.mpr ⟨hr, hwin⟩
    rw [List.isEmpty_iff.mp hemp] at hmemf
    exact List.not_mem_nil r hmemf
  rw [if_neg hne]

lemma exists_window_iff_mem (df : List Row) (s : ℤ)
    (hv : ∀ r ∈ df, ValidDT r.time)
    (hcons : ∀ r ∈ df, r.season = seasonOf r.time) :
    (∃ r ∈ df, inSeasonWindow s r.time = true) ↔ s ∈ seasonsSorted df := by
  rw [mem_seasonsSorted, List.mem_map]
  constructor
  · rintro ⟨r, hr, hw⟩
    exact ⟨r, hr, by
      rw [hcons r hr]
      exact (inSeasonWindow_iff s r.time (hv r hr)).mp hw⟩
  · rintro ⟨r, hr, hrs⟩
    exact ⟨r, hr, (inSeasonWindow_iff s r.time (hv r hr)).mpr (by
      rw [← hcons r hr]; exact hrs)⟩

/-- C8: with in-range timestamps and season labels consistent with the
labeling rule of the source, `compute_yearly_results` emits exactly one
result for each season whose calendar window contains at least one
observation and none for a season with an empty window; its rows are in
strictly ascending season start-year order, and each row carries the label
`"{start_year}-{start_year+1}"`. -/
theorem yearly_results_spec (df : List Row) (T F theta : ℝ)
    (hv : ∀ r ∈ df, ValidDT r.time)
    (hcons : ∀ r ∈ df, r.season = seasonOf r.time) :
    (∀ s : ℤ, (compute_yearly_results df T F theta).countP
          (fun y => y.start_year == s)
        = if ∃ r ∈ df, inSeasonWindow s r.time = true then 1 else 0) ∧
    ((compute_yearly_results df T F theta).map YearlyResult.start_year).Pairwise
      (· < ·) ∧
    (∀ y ∈ compute_yearly_results df T F theta,
      y.season = toString y.start_year ++ "-" ++ toString (y.start_year + 1)) := by
  rw [yearly_results_eq_map df T F theta hv hcons]
  refine ⟨?_, ?_, ?_⟩
  · intro s
    rw [List.countP_map]
    have hnodup : (seasonsSorted df).Nodup :=
      (List.perm_insertionSort _ _).symm.nodup (List.nodup_dedup _)
    by_cases hmem : s ∈ seasonsSorted df
    · rw [if_pos ((exists_window_iff_mem df s hv hcons).mpr hmem)]
      exact List.count_eq_one_of_mem hnodup hmem
    · rw [if_neg (fun hex => hmem ((exists_window_iff_mem df s hv hcons).mp hex))]
      exact List.count_eq_zero.mpr hmem
  · rw [List.map_map]
    have hid : (YearlyResult.start_year ∘ yearlyRow df T F theta) = id := rfl
    rw [hid, List.map_id]
    exact seasonsSorted_pairwise_lt df
  · intro y hy
    rw [List.mem_map] at hy
    obtain ⟨a, _, rfl⟩ := hy
    rfl

/-- C8 witness: a single December-2021 observation yields exactly one result
row, for season 2021. -/
theorem yearly_results_spec_witness :
    (compute_yearly_results [sampleRow] 1 1 1).countP
        (fun y => y.start_year == 2021) = 1 := by
  have hv : ∀ r ∈ [sampleRow], ValidDT r.time := by
    intro r hr
    rw [List.mem_singleton] at hr
    subst hr
    decide
  have hcons : ∀ r ∈ [sampleRow], r.season = seasonOf r.time := by
    intro r hr
    rw [List.mem_singleton] at hr
    subst hr
    decide
  have h := (yearly_results_spec [sampleRow] 1 1 1 hv hcons).1 2021
  rw [h, if_pos ⟨sampleRow, List.mem_singleton.mpr rfl, by decide⟩]

end Snowdrift
